import Mathlib

/-!
Verification of the per-frame event-handling and simulation-driving loop of
gio-cloth (`src/main.go`, function `loop`).

The repository ships only `main.go`; the `Mouse` and `Cloth` types live in
files that are not part of the provided sources, so their operations are
modelled from the specification (each such definition carries a doc comment
starting with `Modelled from the spec:`).  Everything else below is a direct
shallow embedding of `main.go`:

* pixel/scalar quantities (`unit.Dp`, seconds, forces) are modelled as `ℚ`;
  viewport dimensions and grid origins are `Int` as in the Go code;
* each Gio event is a value of an `Event` type mirroring the shapes the
  `loop` switch discriminates on (`pointer.Event` with `Type`, `Buttons`,
  `Position`, `Scroll`, `Modifiers`; `key.Event` with `State`, `Name`);
* one `system.FrameEvent` iteration of the `for`/`select` loop becomes
  `frameStep`, which also records a trace of `Action`s (events folded into
  interaction state, `Init`/`Reset`/`Update` calls, window close) in the
  order the corresponding Go statements execute.
-/

namespace GioCloth

/-! ### Compile-time constants (main.go lines 26-29 and 80-82) -/

/-- Window width constant, main.go line 27. -/
def windowWidth : Int := 940

/-- Window height constant, main.go line 28. -/
def windowHeight : Int := 580

/-- Cloth pixel width: `windowWidth * 1.3 = 1222` (exact, main.go line 80). -/
def clothW : Int := 1222

/-- Cloth pixel height: `windowHeight * 0.4 = 232` (exact, main.go line 81). -/
def clothH : Int := 232

/-- The hard-coded timestep `0.015` passed to `cloth.Update` (main.go
line 194), as the exact rational 3/200. -/
def updateDt : ℚ := 3 / 200

/-! ### The pointer-interaction state (`Mouse`)

The `Mouse` struct itself is declared in a file not present under the
provided sources; `main.go` line 77 constructs it as
`&Mouse{maxScrollY: unit.Dp(200)}`, all other fields starting at Go zero
values.  Its operations are modelled from the specification (§3
"Pointer/Interaction State"). -/

/-- Pointer-interaction state: current/previous position, drag and button
flags, control-modifier flag, accumulated force, and the scroll-controlled
interaction radius with its configured maximum (spec §3). -/
structure Mouse where
  x : ℚ := 0
  y : ℚ := 0
  px : ℚ := 0
  py : ℚ := 0
  dragging : Bool := false
  leftDown : Bool := false
  rightDown : Bool := false
  ctrlDown : Bool := false
  force : ℚ := 0
  scrollY : ℚ := 0
  maxScrollY : ℚ := 0
  deriving DecidableEq

/-- Modelled from the spec: `mouse.setScrollY` stores the (already clamped)
scroll accumulator as the interaction radius. -/
def Mouse.setScrollY (m : Mouse) (v : ℚ) : Mouse := { m with scrollY := v }

/-- Modelled from the spec: `mouse.getLeftButton` reads the left-button
flag. -/
def Mouse.getLeftButton (m : Mouse) : Bool := m.leftDown

/-- Modelled from the spec: `mouse.increaseForce` grows the accumulating
force scalar ("grows with how long the left button has been held", §3). -/
def Mouse.increaseForce (m : Mouse) (d : ℚ) : Mouse := { m with force := m.force + d }

/-- Modelled from the spec: `mouse.resetForce` resets the force accumulator
to zero. -/
def Mouse.resetForce (m : Mouse) : Mouse := { m with force := 0 }

/-- Modelled from the spec: `mouse.setLeftButton` raises the left-button
flag. -/
def Mouse.setLeftButton (m : Mouse) : Mouse := { m with leftDown := true }

/-- Modelled from the spec: `mouse.releaseLeftButton` clears the left-button
flag. -/
def Mouse.releaseLeftButton (m : Mouse) : Mouse := { m with leftDown := false }

/-- Modelled from the spec: `mouse.setRightButton` raises the right-button
flag. -/
def Mouse.setRightButton (m : Mouse) : Mouse := { m with rightDown := true }

/-- Modelled from the spec: `mouse.releaseRightButton` clears the
right-button flag. -/
def Mouse.releaseRightButton (m : Mouse) : Mouse := { m with rightDown := false }

/-- Modelled from the spec: `mouse.setDragging` stores the drag flag. -/
def Mouse.setDragging (m : Mouse) (b : Bool) : Mouse := { m with dragging := b }

/-- Modelled from the spec: `mouse.setCtrlDown` stores the control-modifier
flag. -/
def Mouse.setCtrlDown (m : Mouse) (b : Bool) : Mouse := { m with ctrlDown := b }

/-- Modelled from the spec: `mouse.updatePosition` shifts the current
position into the previous position and stores the new one (§3 keeps both a
current and a previous pointer position).  `mouse.getCurrentPosition(ev)`
returns the event's position, so call sites below pass the event position
directly. -/
def Mouse.updatePosition (m : Mouse) (nx ny : ℚ) : Mouse :=
  { m with px := m.x, py := m.y, x := nx, y := ny }

/-! ### The cloth -/

/-- A point mass: current and previous position plus the pin flag
(spec §3 "Particle"). -/
structure Particle where
  x : ℚ
  y : ℚ
  px : ℚ
  py : ℚ
  pinned : Bool
  deriving DecidableEq

/-- A distance constraint between two particles referenced by store index
(spec §3 "Constraint"). -/
structure Constraint where
  p1 : Nat
  p2 : Nat
  restLength : ℚ
  active : Bool
  deriving DecidableEq

/-- The cloth: grid dimensions, spacing, damping, particle store, constraint
set and the initialization flag (spec §3 "Cloth"). -/
structure Cloth where
  gridW : Nat
  gridH : Nat
  spacing : ℚ
  damping : ℚ
  particles : List Particle
  constraints : List Constraint
  isInitialized : Bool
  deriving DecidableEq

/-- Grid particles in row-major order (`row * gridWidth + col`), at
`spacing`-pixel intervals from the origin, with row 0 pinned (spec §3,
§4.6). -/
def buildParticles (gw gh : Nat) (spacing sx sy : ℚ) : List Particle :=
  (List.range gh).flatMap (fun row =>
    (List.range gw).map (fun col =>
      let cx : ℚ := sx + (col : ℚ) * spacing
      let cy : ℚ := sy + (row : ℚ) * spacing
      { x := cx, y := cy, px := cx, py := cy, pinned := row == 0 }))

/-- One constraint per axis-adjacent particle pair, rest length `spacing`,
initially active (spec §3, §4.2). -/
def buildConstraints (gw gh : Nat) (spacing : ℚ) : List Constraint :=
  (List.range gh).flatMap (fun row =>
    (List.range gw).flatMap (fun col =>
      (if col + 1 < gw then
        [{ p1 := row * gw + col, p2 := row * gw + (col + 1),
           restLength := spacing, active := true }]
       else []) ++
      (if row + 1 < gh then
        [{ p1 := row * gw + col, p2 := (row + 1) * gw + col,
           restLength := spacing, active := true }]
       else [])))

/-- Modelled from the spec: `cloth.go` is not under the provided sources.
§4.6: `Init(startX, startY)` builds the `gridW × gridH` particle grid at
`spacing`-pixel intervals from the origin, pins row 0, builds the
constraints and marks the cloth initialized. -/
def Cloth.Init (c : Cloth) (sx sy : Int) : Cloth :=
  { c with
    particles := buildParticles c.gridW c.gridH c.spacing (sx : ℚ) (sy : ℚ),
    constraints := buildConstraints c.gridW c.gridH c.spacing,
    isInitialized := true }

/-- Modelled from the spec: §4.6 and §5: `Reset(startX, startY)` fully
discards the previous particle/constraint state and re-runs `Init`. -/
def Cloth.Reset (c : Cloth) (sx sy : Int) : Cloth :=
  Cloth.Init { c with particles := [], constraints := [] } sx sy

/-- Constant downward gravitational acceleration used by the integrator;
the spec leaves the exact tuning value open (§9), so a named constant is
used. -/
def gravity : ℚ := 981 / 1000

/-- One Verlet step for a single particle (spec §4.3): pinned particles are
skipped; otherwise velocity is reconstructed as `position − previous`,
damped, and gravity scaled by `dt²` is added. -/
def integrateParticle (damping dt : ℚ) (p : Particle) : Particle :=
  if p.pinned then p
  else
    { x := p.x + (p.x - p.px) * damping,
      y := p.y + (p.y - p.py) * damping + gravity * dt * dt,
      px := p.x, py := p.y, pinned := p.pinned }

/-- Modelled from the spec: `cloth.go` is not under the provided sources.
§4.6: `Update(gtx, mouse, dt)` runs the integrator, the interaction effects
and the solver passes.  Only the integrator is modelled here: no claim in
this development depends on the solver or on the interaction effects (whose
distance computations are not rational), and per §3 `Update` never mutates
the mouse's button/position fields nor the initialization flag. -/
def Cloth.Update (c : Cloth) (_m : Mouse) (dt : ℚ) : Cloth :=
  { c with particles := c.particles.map (integrateParticle c.damping dt) }

/-- Modelled from the spec: `NewCloth(w, h, spacing, damping, color)`
(main.go line 82) stores the configuration with an empty, uninitialized
grid; the logical grid dimensions derive from the pixel dimensions and the
spacing. -/
def NewCloth (w h spacing : Int) (damping : ℚ) : Cloth :=
  { gridW := (w / spacing).toNat, gridH := (h / spacing).toNat,
    spacing := (spacing : ℚ), damping := damping,
    particles := [], constraints := [], isInitialized := false }

/-! ### Events, as discriminated by the `loop` switch -/

/-- The set of pointer buttons currently pressed (`pointer.Buttons` is a
bit set; the Go `switch ev.Buttons` matches the exact set). -/
structure Buttons where
  primary : Bool := false
  secondary : Bool := false
  tertiary : Bool := false
  deriving DecidableEq

/-- The pointer event kinds handled by `loop` (main.go lines 150-178). -/
inductive PointerKind
  | scroll
  | move
  | press
  | release
  | drag
  deriving DecidableEq

/-- Modifier keys attached to a pointer event (`ev.Modifiers == key.ModCtrl`
is an exact comparison, so the whole set is modelled). -/
structure Modifiers where
  ctrl : Bool := false
  shift : Bool := false
  alt : Bool := false
  deriving DecidableEq

/-- A `pointer.Event` as used by `loop`: kind, exact button set, position,
vertical scroll delta and modifiers. -/
structure PointerEvent where
  kind : PointerKind
  buttons : Buttons := {}
  posX : ℚ := 0
  posY : ℚ := 0
  scrollDY : ℚ := 0
  modifiers : Modifiers := {}
  deriving DecidableEq

/-- Key event state (`key.Press` / `key.Release`). -/
inductive KeyState
  | press
  | release
  deriving DecidableEq

/-- The key names `loop` can receive (it registers Escape, Ctrl, Alt and
Space; `other` stands for any further name). -/
inductive KeyName
  | space
  | escape
  | ctrl
  | alt
  | other
  deriving DecidableEq

/-- A `key.Event` as used by `loop`: state and name. -/
structure KeyEvent where
  state : KeyState
  name : KeyName
  deriving DecidableEq

/-- One event delivered by `gtx.Queue.Events(w)` in a frame. -/
inductive Event
  | pointer (e : PointerEvent)
  | keyEv (e : KeyEvent)
  deriving DecidableEq

/-- Trace actions, recording in program order what the loop body does:
an event folded into interaction state, a `cloth.Init`, a `cloth.Reset`,
the window-close request, or a `cloth.Update` call with its timestep. -/
inductive Action
  | applied (e : Event)
  | initCall (sx sy : Int)
  | resetCall (sx sy : Int)
  | closeWindow
  | updateCall (dt : ℚ)
  deriving DecidableEq

/-! ### The loop state and the per-frame step (main.go lines 63-213) -/

/-- The mutable state of `loop` that the claims concern: the shared `Mouse`,
the local `isDragging`, `scrollY` and `initTime` variables, and the cloth. -/
structure LoopState where
  mouse : Mouse
  isDragging : Bool
  scrollY : ℚ
  initTime : ℚ
  cloth : Cloth
  deriving DecidableEq

/-- The grid origin x used both at first-frame init (main.go line 101) and
at Space-key reset (line 138): `width/2 - clothW/2` with Go integer
division. -/
def startXof (w : Int) : Int := w / 2 - clothW / 2

/-- The grid origin y used both at first-frame init (main.go line 102) and
at Space-key reset (line 139).  The Go source computes
`int(float64(height) * 0.2)`; it is modelled as the integer computation
`2 * h / 10`.  No claim depends on the exact value, only on both call sites
sharing this same function of the viewport height. -/
def startYof (h : Int) : Int := 2 * h / 10

/-- Key-event handling, main.go lines 132-146: a Space press recomputes the
origin from the current viewport and calls `cloth.Reset`; an Escape event
asks the host to close the window (note the Escape test is not guarded by
`key.Press` in the source).  Nothing else is touched. -/
def keyStep (vw vh : Int) (s : LoopState) (e : KeyEvent) : LoopState × List Action :=
  let s1 := if e.state = KeyState.press ∧ e.name = KeyName.space then
      { s with cloth := s.cloth.Reset (startXof vw) (startYof vh) }
    else s
  let a1 : List Action := if e.state = KeyState.press ∧ e.name = KeyName.space then
      [Action.resetCall (startXof vw) (startYof vh)]
    else []
  let a2 : List Action := if e.name = KeyName.escape then [Action.closeWindow] else []
  (s1, a1 ++ a2)

/-- The `switch ev.Type` part of pointer handling, main.go lines 150-178.
`now` is the wall-clock time at which the frame is processed (used to stamp
`initTime` on press). -/
def pointerKindStep (now : ℚ) (s : LoopState) (ev : PointerEvent) : LoopState :=
  match ev.kind with
  | PointerKind.scroll =>
      let v0 := s.scrollY + ev.scrollDY
      let v := if v0 < 0 then 0
        else if v0 > s.mouse.maxScrollY then s.mouse.maxScrollY
        else v0
      { s with scrollY := v, mouse := s.mouse.setScrollY v }
  | PointerKind.move =>
      { s with mouse := s.mouse.updatePosition ev.posX ev.posY }
  | PointerKind.press =>
      let m := if ev.modifiers = { ctrl := true } then s.mouse.setCtrlDown true else s.mouse
      { s with mouse := m.setLeftButton, initTime := now }
  | PointerKind.release =>
      let m := ((((s.mouse.resetForce).releaseLeftButton).releaseRightButton).setDragging false).setCtrlDown false
      { s with isDragging := false, mouse := m }
  | PointerKind.drag =>
      { s with isDragging := true }

/-- The `switch ev.Buttons` part of pointer handling, main.go lines 179-189:
runs after the kind switch on the same event and matches the exact button
set. -/
def pointerButtonsStep (s : LoopState) (ev : PointerEvent) : LoopState :=
  if ev.buttons = ({ primary := true } : Buttons) then
    let m := ((s.mouse.setLeftButton).updatePosition ev.posX ev.posY).setDragging s.isDragging
    { s with mouse := m }
  else if ev.buttons = ({ secondary := true } : Buttons) then
    { s with mouse := (s.mouse.setRightButton).updatePosition ev.posX ev.posY }
  else s

/-- Processing of one queued event, main.go lines 131-191. -/
def eventStep (vw vh : Int) (now : ℚ) (s : LoopState) (ev : Event) : LoopState × List Action :=
  match ev with
  | Event.keyEv e => ((keyStep vw vh s e).1, Action.applied ev :: (keyStep vw vh s e).2)
  | Event.pointer e => (pointerButtonsStep (pointerKindStep now s e) e, [Action.applied ev])

/-- Draining all queued events of the frame, in order. -/
def eventsStep (vw vh : Int) (now : ℚ) (s : LoopState) : List Event → LoopState × List Action
  | [] => (s, [])
  | ev :: rest =>
      ((eventsStep vw vh now (eventStep vw vh now s ev).1 rest).1,
       (eventStep vw vh now s ev).2 ++ (eventsStep vw vh now (eventStep vw vh now s ev).1 rest).2)

/-- The host-supplied inputs of one `system.FrameEvent`: the viewport
maximum constraints, the wall-clock time at which the frame is processed,
and the queued events. -/
structure FrameInput where
  vw : Int
  vh : Int
  now : ℚ
  events : List Event
  deriving DecidableEq

/-- First-frame setup, main.go lines 97-104: when `!cloth.isInitialized`,
the origin is computed from the viewport maximum constraints and
`cloth.Init` runs. -/
def initStep (s : LoopState) (f : FrameInput) : LoopState :=
  if s.cloth.isInitialized then s
  else { s with cloth := s.cloth.Init (startXof f.vw) (startYof f.vh) }

/-- The trace of the first-frame setup. -/
def initActs (s : LoopState) (f : FrameInput) : List Action :=
  if s.cloth.isInitialized then []
  else [Action.initCall (startXof f.vw) (startYof f.vh)]

/-- Force accumulation, main.go lines 126-129: while the left button is
held, the force grows by the time elapsed since the press (`initTime`). -/
def forceStep (now : ℚ) (s : LoopState) : LoopState :=
  if s.mouse.getLeftButton then
    { s with mouse := s.mouse.increaseForce (now - s.initTime) }
  else s

/-- The simulation step call, main.go line 194:
`cloth.Update(gtx, mouse, 0.015)`. -/
def updateStep (s : LoopState) : LoopState :=
  { s with cloth := s.cloth.Update s.mouse updateDt }

/-- One `system.FrameEvent` iteration of `loop`, main.go lines 90-209, in
statement order: (1) first-frame `Init` when `!cloth.isInitialized`
(lines 97-104); (2) force accumulation while the left button is held
(lines 126-129); (3) draining of all queued events (lines 131-191);
(4) `cloth.Update(gtx, mouse, 0.015)` (line 194).  The returned trace
records these steps in that order. -/
def frameStep (s : LoopState) (f : FrameInput) : LoopState × List Action :=
  (updateStep (eventsStep f.vw f.vh f.now (forceStep f.now (initStep s f)) f.events).1,
   initActs s f ++
     (eventsStep f.vw f.vh f.now (forceStep f.now (initStep s f)) f.events).2 ++
     [Action.updateCall updateDt])

/-- Running a sequence of frames, threading the state and concatenating the
traces. -/
def run (s : LoopState) : List FrameInput → LoopState × List Action
  | [] => (s, [])
  | f :: rest =>
      ((run (frameStep s f).1 rest).1, (frameStep s f).2 ++ (run (frameStep s f).1 rest).2)

/-- The loop state after a sequence of frames. -/
def runFrames (s : LoopState) (fs : List FrameInput) : LoopState := (run s fs).1

/-- The concatenated trace of a sequence of frames. -/
def runTrace (s : LoopState) (fs : List FrameInput) : List Action := (run s fs).2

/-- The cloth as constructed at main.go line 82:
`NewCloth(clothW, clothH, 8, 0.99, col)`. -/
def initialCloth : Cloth := NewCloth clothW clothH 8 (99 / 100)

/-- The mouse as constructed at main.go line 77:
`&Mouse{maxScrollY: unit.Dp(200)}`, all other fields at Go zero values. -/
def initialMouse : Mouse := { maxScrollY := 200 }

/-- The state of `loop` before the first frame: fresh mouse, `isDragging`
false, `scrollY` zero, zero `initTime`, uninitialized cloth. -/
def initialState : LoopState :=
  { mouse := initialMouse, isDragging := false, scrollY := 0, initTime := 0,
    cloth := initialCloth }

/-! ### Small fixtures for concrete witnesses -/

/-- A small already-initialized cloth, used to instantiate universally
quantified theorems on concrete states. -/
def wCloth : Cloth :=
  { gridW := 2, gridH := 2, spacing := 8, damping := 99 / 100,
    particles := [], constraints := [], isInitialized := true }

/-- A concrete loop state with the small cloth. -/
def wState : LoopState :=
  { mouse := initialMouse, isDragging := false, scrollY := 0, initTime := 0,
    cloth := wCloth }

/-! ### Helper lemmas -/

attribute [simp] Mouse.setScrollY Mouse.getLeftButton Mouse.increaseForce
  Mouse.resetForce Mouse.setLeftButton Mouse.releaseLeftButton
  Mouse.setRightButton Mouse.releaseRightButton Mouse.setDragging
  Mouse.setCtrlDown Mouse.updatePosition

@[simp] lemma Cloth.Init_isInitialized (c : Cloth) (sx sy : Int) :
    (Cloth.Init c sx sy).isInitialized = true := rfl

@[simp] lemma Cloth.Reset_isInitialized (c : Cloth) (sx sy : Int) :
    (Cloth.Reset c sx sy).isInitialized = true := rfl

@[simp] lemma Cloth.Update_isInitialized (c : Cloth) (m : Mouse) (dt : ℚ) :
    (Cloth.Update c m dt).isInitialized = c.isInitialized := rfl

/-- The scroll-clamping invariant established by main.go lines 151-158: both
the loop-local accumulator and the value stored in the mouse stay within
`[0, 200]`, where 200 is the `maxScrollY` configured at line 77. -/
def ScrollInv (s : LoopState) : Prop :=
  0 ≤ s.scrollY ∧ s.scrollY ≤ 200 ∧
  0 ≤ s.mouse.scrollY ∧ s.mouse.scrollY ≤ 200 ∧
  s.mouse.maxScrollY = 200

lemma clamp_mem (x mx : ℚ) (hmax : 0 ≤ mx) :
    0 ≤ (if x < 0 then 0 else if x > mx then mx else x) ∧
    (if x < 0 then 0 else if x > mx then mx else x) ≤ mx := by
  split_ifs <;> constructor <;> linarith

lemma scrollInv_pointerKindStep {s : LoopState} (now : ℚ) (ev : PointerEvent)
    (h : ScrollInv s) : ScrollInv (pointerKindStep now s ev) := by
  obtain ⟨h1, h2, h3, h4, h5⟩ := h
  obtain ⟨k, b, px, py, sd, m⟩ := ev
  cases k with
  | scroll =>
      have hc := clamp_mem (s.scrollY + sd) s.mouse.maxScrollY (by rw [h5]; norm_num)
      exact ⟨hc.1, le_trans hc.2 (le_of_eq h5), hc.1, le_trans hc.2 (le_of_eq h5), h5⟩
  | move => exact ⟨h1, h2, h3, h4, h5⟩
  | press =>
      simp only [pointerKindStep]
      split_ifs <;> exact ⟨h1, h2, h3, h4, h5⟩
  | release => exact ⟨h1, h2, h3, h4, h5⟩
  | drag => exact ⟨h1, h2, h3, h4, h5⟩

lemma scrollInv_pointerButtonsStep {s : LoopState} (ev : PointerEvent)
    (h : ScrollInv s) : ScrollInv (pointerButtonsStep s ev) := by
  obtain ⟨h1, h2, h3, h4, h5⟩ := h
  unfold pointerButtonsStep
  split_ifs <;> exact ⟨h1, h2, h3, h4, h5⟩

lemma scrollInv_keyStep {s : LoopState} (vw vh : Int) (e : KeyEvent)
    (h : ScrollInv s) : ScrollInv (keyStep vw vh s e).1 := by
  obtain ⟨h1, h2, h3, h4, h5⟩ := h
  unfold keyStep
  split_ifs <;> exact ⟨h1, h2, h3, h4, h5⟩

lemma scrollInv_eventStep {s : LoopState} (vw vh : Int) (now : ℚ) (ev : Event)
    (h : ScrollInv s) : ScrollInv (eventStep vw vh now s ev).1 := by
  cases ev with
  | keyEv e => exact scrollInv_keyStep vw vh e h
  | pointer e =>
      exact scrollInv_pointerButtonsStep e (scrollInv_pointerKindStep now e h)

lemma scrollInv_eventsStep (vw vh : Int) (now : ℚ) :
    ∀ (evs : List Event) (s : LoopState), ScrollInv s →
      ScrollInv (eventsStep vw vh now s evs).1 := by
  intro evs
  induction evs with
  | nil => intro s h; simpa [eventsStep] using h
  | cons ev rest ih =>
      intro s h
      simpa [eventsStep] using ih _ (scrollInv_eventStep vw vh now ev h)

lemma scrollInv_initStep {s : LoopState} (f : FrameInput)
    (h : ScrollInv s) : ScrollInv (initStep s f) := by
  obtain ⟨h1, h2, h3, h4, h5⟩ := h
  unfold initStep
  split_ifs <;> exact ⟨h1, h2, h3, h4, h5⟩

lemma scrollInv_forceStep {s : LoopState} (now : ℚ)
    (h : ScrollInv s) : ScrollInv (forceStep now s) := by
  obtain ⟨h1, h2, h3, h4, h5⟩ := h
  unfold forceStep
  split_ifs <;> exact ⟨h1, h2, h3, h4, h5⟩

lemma scrollInv_updateStep {s : LoopState}
    (h : ScrollInv s) : ScrollInv (updateStep s) := by
  obtain ⟨h1, h2, h3, h4, h5⟩ := h
  exact ⟨h1, h2, h3, h4, h5⟩

lemma scrollInv_frameStep {s : LoopState} (f : FrameInput)
    (h : ScrollInv s) : ScrollInv (frameStep s f).1 :=
  scrollInv_updateStep
    (scrollInv_eventsStep f.vw f.vh f.now f.events _
      (scrollInv_forceStep f.now (scrollInv_initStep f h)))

lemma scrollInv_runFrames {s : LoopState} :
    ∀ (fs : List FrameInput), ScrollInv s → ScrollInv (runFrames s fs) := by
  intro fs
  induction fs generalizing s with
  | nil => intro h; simpa [runFrames, run] using h
  | cons f rest ih =>
      intro h
      have h1 : ScrollInv (frameStep s f).1 := scrollInv_frameStep f h
      simpa [runFrames, run] using ih h1

lemma mem_keyStep_acts {vw vh : Int} {s : LoopState} {e : KeyEvent} {a : Action}
    (ha : a ∈ (keyStep vw vh s e).2) :
    a = Action.resetCall (startXof vw) (startYof vh) ∨ a = Action.closeWindow := by
  simp only [keyStep] at ha
  split_ifs at ha <;> simp at ha <;> tauto

lemma mem_eventStep_acts {vw vh : Int} {now : ℚ} {s : LoopState} {ev : Event} {a : Action}
    (ha : a ∈ (eventStep vw vh now s ev).2) :
    (∃ e, a = Action.applied e) ∨
      a = Action.resetCall (startXof vw) (startYof vh) ∨ a = Action.closeWindow := by
  cases ev with
  | pointer e =>
      simp only [eventStep, List.mem_singleton] at ha
      exact Or.inl ⟨_, ha⟩
  | keyEv e =>
      simp only [eventStep, List.mem_cons] at ha
      rcases ha with rfl | ha
      · exact Or.inl ⟨_, rfl⟩
      · exact Or.inr (mem_keyStep_acts ha)

lemma mem_eventsStep_acts (vw vh : Int) (now : ℚ) :
    ∀ (evs : List Event) (s : LoopState) (a : Action),
      a ∈ (eventsStep vw vh now s evs).2 →
      (∃ e, a = Action.applied e) ∨
        a = Action.resetCall (startXof vw) (startYof vh) ∨ a = Action.closeWindow := by
  intro evs
  induction evs with
  | nil => intro s a ha; simp [eventsStep] at ha
  | cons ev rest ih =>
      intro s a ha
      simp only [eventsStep, List.mem_append] at ha
      rcases ha with ha | ha
      · exact mem_eventStep_acts ha
      · exact ih _ _ ha

lemma frameStep_trace (s : LoopState) (f : FrameInput) :
    (frameStep s f).2 =
      (initActs s f ++
        (eventsStep f.vw f.vh f.now (forceStep f.now (initStep s f)) f.events).2) ++
      [Action.updateCall updateDt] := by
  simp [frameStep, List.append_assoc]

lemma mem_initActs {s : LoopState} {f : FrameInput} {a : Action}
    (ha : a ∈ initActs s f) :
    a = Action.initCall (startXof f.vw) (startYof f.vh) := by
  unfold initActs at ha
  split_ifs at ha <;> simp at ha
  exact ha

lemma initActs_of_initialized {s : LoopState} (f : FrameInput)
    (h : s.cloth.isInitialized = true) : initActs s f = [] := by
  unfold initActs
  simp [h]

lemma pointerKindStep_cloth (now : ℚ) (s : LoopState) (ev : PointerEvent) :
    (pointerKindStep now s ev).cloth = s.cloth := by
  obtain ⟨k, b, px, py, sd, m⟩ := ev
  cases k <;> rfl

lemma pointerButtonsStep_cloth (s : LoopState) (ev : PointerEvent) :
    (pointerButtonsStep s ev).cloth = s.cloth := by
  unfold pointerButtonsStep
  split_ifs <;> rfl

lemma keyStep_initialized {vw vh : Int} {s : LoopState} {e : KeyEvent}
    (h : s.cloth.isInitialized = true) :
    ((keyStep vw vh s e).1).cloth.isInitialized = true := by
  simp only [keyStep]
  split_ifs <;> simp [h]

lemma eventStep_initialized {vw vh : Int} {now : ℚ} {s : LoopState} {ev : Event}
    (h : s.cloth.isInitialized = true) :
    ((eventStep vw vh now s ev).1).cloth.isInitialized = true := by
  cases ev with
  | pointer e =>
      show (pointerButtonsStep (pointerKindStep now s e) e).cloth.isInitialized = true
      rw [pointerButtonsStep_cloth, pointerKindStep_cloth]
      exact h
  | keyEv e => exact keyStep_initialized h

lemma eventsStep_initialized (vw vh : Int) (now : ℚ) :
    ∀ (evs : List Event) (s : LoopState), s.cloth.isInitialized = true →
      ((eventsStep vw vh now s evs).1).cloth.isInitialized = true := by
  intro evs
  induction evs with
  | nil => intro s h; simpa [eventsStep] using h
  | cons ev rest ih =>
      intro s h
      simpa [eventsStep] using ih _ (eventStep_initialized h)

lemma initStep_initialized (s : LoopState) (f : FrameInput) :
    (initStep s f).cloth.isInitialized = true := by
  unfold initStep
  split_ifs with h
  · exact h
  · simp

lemma forceStep_cloth (now : ℚ) (s : LoopState) :
    (forceStep now s).cloth = s.cloth := by
  unfold forceStep
  split_ifs <;> rfl

lemma frameStep_initialized (s : LoopState) (f : FrameInput) :
    ((frameStep s f).1).cloth.isInitialized = true := by
  show (updateStep _).cloth.isInitialized = true
  have h1 : (forceStep f.now (initStep s f)).cloth.isInitialized = true := by
    rw [forceStep_cloth]
    exact initStep_initialized s f
  have h2 := eventsStep_initialized f.vw f.vh f.now f.events _ h1
  simpa [updateStep] using h2

lemma run_trace_no_initCall :
    ∀ (fs : List FrameInput) (s : LoopState), s.cloth.isInitialized = true →
      ∀ x y : Int, Action.initCall x y ∉ (run s fs).2 := by
  intro fs
  induction fs with
  | nil => intro s h x y; simp [run]
  | cons f rest ih =>
      intro s h x y hmem
      simp only [run, List.mem_append] at hmem
      rcases hmem with hmem | hmem
      · rw [frameStep_trace] at hmem
        simp only [List.mem_append, List.mem_singleton,
          initActs_of_initialized f h, List.not_mem_nil] at hmem
        rcases hmem with (hmem | hmem) | hmem
        · exact hmem
        · rcases mem_eventsStep_acts f.vw f.vh f.now f.events _ _ hmem with
            ⟨e, he⟩ | he | he <;> simp at he
        · simp at hmem
      · exact ih _ (frameStep_initialized s f) x y hmem

/-! ### Claim theorems -/

/-- C1: for every sequence of frames (hence every sequence of scroll
events) starting from the program's initial state, the scroll accumulator
passed to `setScrollY` — and the value the mouse stores as interaction
radius — always lies within `[0, 200]`, the configured `maxScrollY`:
additions below 0 are clamped to 0 and additions above the maximum are
clamped to the maximum, silently (main.go lines 151-158, 77). -/
theorem claim_C1_scroll_radius_clamped (fs : List FrameInput) :
    0 ≤ (runFrames initialState fs).mouse.scrollY ∧
    (runFrames initialState fs).mouse.scrollY ≤ 200 ∧
    0 ≤ (runFrames initialState fs).scrollY ∧
    (runFrames initialState fs).scrollY ≤ 200 := by
  have h0 : ScrollInv initialState := by
    unfold ScrollInv initialState initialMouse
    norm_num
  obtain ⟨h1, h2, h3, h4, h5⟩ := scrollInv_runFrames fs h0
  exact ⟨h3, h4, h1, h2⟩

/-- C4: cloth initialization runs at most once.  Starting from the
program's initial state, for every nonempty sequence of frames the trace
contains exactly one `Init` call: it is the very first action (hence it
precedes every `Update` call and every other effect), and no later frame
re-invokes `Init`, because `Init` marks the cloth initialized and the guard
`!cloth.isInitialized` (main.go lines 97-104) then always fails. -/
theorem claim_C4_init_runs_once (fs : List FrameInput) (hne : fs ≠ []) :
    ∃ sx sy rest, runTrace initialState fs = Action.initCall sx sy :: rest ∧
      ∀ x y : Int, Action.initCall x y ∉ rest := by
  obtain ⟨f, fs2, rfl⟩ := List.exists_cons_of_ne_nil hne
  have h0 : initialState.cloth.isInitialized = false := rfl
  have hacts : initActs initialState f =
      [Action.initCall (startXof f.vw) (startYof f.vh)] := by
    unfold initActs
    simp [h0]
  refine ⟨startXof f.vw, startYof f.vh,
    (eventsStep f.vw f.vh f.now (forceStep f.now (initStep initialState f)) f.events).2 ++
      [Action.updateCall updateDt] ++ (run (frameStep initialState f).1 fs2).2, ?_, ?_⟩
  · show (run initialState (f :: fs2)).2 = _
    simp only [run, frameStep_trace, hacts]
    simp [List.append_assoc]
  · intro x y hmem
    simp only [List.mem_append, List.mem_singleton] at hmem
    rcases hmem with (hmem | hmem) | hmem
    · rcases mem_eventsStep_acts f.vw f.vh f.now f.events _ _ hmem with
        ⟨e, he⟩ | he | he <;> simp at he
    · simp at hmem
    · exact run_trace_no_initCall fs2 _ (frameStep_initialized initialState f) x y hmem

/-- Witness for C4 at a concrete one-frame run. -/
theorem claim_C4_init_runs_once_witness :
    ([⟨940, 580, 1, []⟩] : List FrameInput) ≠ [] ∧
    ∃ sx sy rest,
      runTrace initialState [⟨940, 580, 1, []⟩] = Action.initCall sx sy :: rest ∧
        ∀ x y : Int, Action.initCall x y ∉ rest :=
  ⟨by simp, claim_C4_init_runs_once [⟨940, 580, 1, []⟩] (by simp)⟩

/-- C5: within every frame, every queued event is folded into the
interaction state strictly before `update(dt)` runs: whenever position `i`
of a frame's trace applies an event and position `j` is the frame's
`Update` call, then `i < j`.  Together with the fact that each frame's
trace contains its `Update` call as the final action, no event is applied
after `update` within the same frame (main.go lines 131-191 vs 194). -/
theorem claim_C5_events_precede_update (s : LoopState) (f : FrameInput)
    (i j : ℕ) (e : Event) (d : ℚ)
    (hi : i < ((frameStep s f).2).length) (hj : j < ((frameStep s f).2).length)
    (he : ((frameStep s f).2)[i] = Action.applied e)
    (hd : ((frameStep s f).2)[j] = Action.updateCall d) :
    i < j := by
  have hL := frameStep_trace s f
  set A := initActs s f ++
    (eventsStep f.vw f.vh f.now (forceStep f.now (initStep s f)) f.events).2 with hAdef
  have hnoup : ∀ a ∈ A, ∀ d' : ℚ, a ≠ Action.updateCall d' := by
    intro a ha d'
    rcases List.mem_append.1 ha with ha | ha
    · rw [mem_initActs ha]; simp
    · rcases mem_eventsStep_acts f.vw f.vh f.now f.events _ _ ha with
        ⟨e', rfl⟩ | rfl | rfl <;> simp
  revert hi hj he hd
  rw [hL]
  intro hi hj he hd
  have hlen : (A ++ [Action.updateCall updateDt]).length = A.length + 1 := by simp
  have hjA : j = A.length := by
    rcases Nat.lt_or_ge j A.length with hj2 | hj2
    · exfalso
      have hget : (A ++ [Action.updateCall updateDt])[j] = A[j] :=
        List.getElem_append_left hj2
      have hmem : A[j] ∈ A := List.getElem_mem hj2
      exact hnoup _ hmem d (by rw [← hget]; exact hd)
    · omega
  have hiA : i ≠ A.length := by
    intro hEq
    subst hEq
    have hu : (A ++ [Action.updateCall updateDt])[A.length] =
        Action.updateCall updateDt := by simp
    simpa using he.symm.trans hu
  omega

/-- Witness for C5 at a concrete frame with one move event: the event
application sits at index 0 and the `Update` call at index 1. -/
theorem claim_C5_events_precede_update_witness :
    0 < 1 ∧ (frameStep wState ⟨940, 580, 1, [Event.pointer ⟨PointerKind.move, {}, 5, 6, 0, {}⟩]⟩).2 =
      [Action.applied (Event.pointer ⟨PointerKind.move, {}, 5, 6, 0, {}⟩),
       Action.updateCall (3 / 200)] :=
  ⟨claim_C5_events_precede_update wState ⟨940, 580, 1, [Event.pointer ⟨PointerKind.move, {}, 5, 6, 0, {}⟩]⟩
      0 1 (Event.pointer ⟨PointerKind.move, {}, 5, 6, 0, {}⟩) (3 / 200)
      (by decide) (by decide) rfl rfl,
    rfl⟩

/-- C9: every frame invokes the cloth update with the hard-coded constant
timestep 0.015 s (the exact rational 3/200), and no other timestep is ever
passed: every `Update` call in any frame's trace carries 3/200, whatever
the frame's real wall-clock time `f.now` is — the measured frame delta is
never passed to the simulation (main.go line 194). -/
theorem claim_C9_constant_timestep (s : LoopState) (f : FrameInput) :
    Action.updateCall (3 / 200) ∈ (frameStep s f).2 ∧
    ∀ d : ℚ, Action.updateCall d ∈ (frameStep s f).2 → d = 3 / 200 := by
  constructor
  · rw [frameStep_trace]
    simp [updateDt]
  · intro d hd
    rw [frameStep_trace] at hd
    simp only [List.mem_append, List.mem_singleton] at hd
    rcases hd with (hd | hd) | hd
    · exact absurd (mem_initActs hd) (by simp)
    · rcases mem_eventsStep_acts f.vw f.vh f.now f.events _ _ hd with
        ⟨e, he⟩ | he | he <;> simp at he
    · rw [show updateDt = 3 / 200 from rfl] at hd
      simpa using hd

/-- Witness for C9 at a concrete frame. -/
theorem claim_C9_constant_timestep_witness :
    Action.updateCall (3 / 200) ∈ (frameStep wState ⟨940, 580, 7, []⟩).2 ∧
    (3 / 200 : ℚ) = 3 / 200 :=
  ⟨(claim_C9_constant_timestep wState ⟨940, 580, 7, []⟩).1,
   (claim_C9_constant_timestep wState ⟨940, 580, 7, []⟩).2 (3 / 200)
     ((claim_C9_constant_timestep wState ⟨940, 580, 7, []⟩).1)⟩

/-- C2 counterexample: the claim "whenever a pointer Release event is
processed, the interaction state returns to Idle (drag cleared, left-button
cleared, force zero)" is false as stated.  A Release event whose `Buttons`
field is exactly `ButtonPrimary` (the primary button remains pressed after
some other button was released) first runs the Release case, which clears
everything, but the subsequent `switch ev.Buttons` (main.go lines 179-184)
immediately re-raises the left-button flag: starting from the idle state,
after this event the left-button flag is `true`, not cleared. -/
theorem claim_C2_counterexample :
    ((eventStep 940 580 0 wState
      (Event.pointer ⟨PointerKind.release, { primary := true }, 0, 0, 0, {}⟩)).1).mouse.leftDown
      = true := rfl

/-- C2 (amended): whenever a pointer Release event whose `Buttons` field is
not exactly `ButtonPrimary` is processed, the interaction state returns to
Idle before the frame's simulation update (which always runs after event
processing, per C5): the drag flags are cleared, the left-button flag is
cleared, and the force accumulator is reset to zero (main.go
lines 168-175).  When the primary button remains in `Buttons`, the
button-state switch re-raises the left-button flag immediately after the
release handling. -/
theorem claim_C2_release_returns_to_idle (vw vh : Int) (now : ℚ) (s : LoopState)
    (ev : PointerEvent)
    (hk : ev.kind = PointerKind.release)
    (hb : ev.buttons ≠ ({ primary := true } : Buttons)) :
    ((eventStep vw vh now s (Event.pointer ev)).1).mouse.dragging = false ∧
    ((eventStep vw vh now s (Event.pointer ev)).1).mouse.leftDown = false ∧
    ((eventStep vw vh now s (Event.pointer ev)).1).mouse.force = 0 ∧
    ((eventStep vw vh now s (Event.pointer ev)).1).isDragging = false := by
  obtain ⟨k, b, px, py, sd, m⟩ := ev
  replace hk : k = PointerKind.release := hk
  subst hk
  simp only [eventStep]
  unfold pointerButtonsStep
  split_ifs with h1 h2
  · exact absurd h1 hb
  · exact ⟨rfl, rfl, rfl, rfl⟩
  · exact ⟨rfl, rfl, rfl, rfl⟩

/-- Witness for the amended C2 at a concrete Release event with empty
`Buttons`. -/
theorem claim_C2_release_returns_to_idle_witness :
    ((eventStep 940 580 0 wState
      (Event.pointer ⟨PointerKind.release, {}, 0, 0, 0, {}⟩)).1).mouse.dragging = false ∧
    ((eventStep 940 580 0 wState
      (Event.pointer ⟨PointerKind.release, {}, 0, 0, 0, {}⟩)).1).mouse.leftDown = false ∧
    ((eventStep 940 580 0 wState
      (Event.pointer ⟨PointerKind.release, {}, 0, 0, 0, {}⟩)).1).mouse.force = 0 ∧
    ((eventStep 940 580 0 wState
      (Event.pointer ⟨PointerKind.release, {}, 0, 0, 0, {}⟩)).1).isDragging = false :=
  claim_C2_release_returns_to_idle 940 580 0 wState
    ⟨PointerKind.release, {}, 0, 0, 0, {}⟩ rfl (by decide)

/-- C10 counterexample: the claim "every pointer Release event — regardless
of which button is released — clears both the left- and right-button flags
…" is false as stated.  A Release event whose `Buttons` field is exactly
`ButtonSecondary` (the secondary button remains pressed) first clears all
flags in the Release case, but the subsequent `switch ev.Buttons`
(main.go lines 185-189) re-raises the right-button flag. -/
theorem claim_C10_counterexample :
    ((eventStep 940 580 0 wState
      (Event.pointer ⟨PointerKind.release, { secondary := true }, 0, 0, 0, {}⟩)).1).mouse.rightDown
      = true := rfl

/-- C10 (amended): every pointer Release event whose `Buttons` field is
empty (no button remains pressed) clears the left-button, right-button,
drag, and control-modifier flags and resets the force accumulator, in a
single step (main.go lines 168-175).  When a button remains in `Buttons`,
the button-state switch re-raises the corresponding flag right after the
release handling. -/
theorem claim_C10_release_clears_all (vw vh : Int) (now : ℚ) (s : LoopState)
    (ev : PointerEvent)
    (hk : ev.kind = PointerKind.release)
    (hb : ev.buttons = ({} : Buttons)) :
    ((eventStep vw vh now s (Event.pointer ev)).1).mouse.leftDown = false ∧
    ((eventStep vw vh now s (Event.pointer ev)).1).mouse.rightDown = false ∧
    ((eventStep vw vh now s (Event.pointer ev)).1).mouse.dragging = false ∧
    ((eventStep vw vh now s (Event.pointer ev)).1).mouse.ctrlDown = false ∧
    ((eventStep vw vh now s (Event.pointer ev)).1).mouse.force = 0 ∧
    ((eventStep vw vh now s (Event.pointer ev)).1).isDragging = false := by
  obtain ⟨k, b, px, py, sd, m⟩ := ev
  replace hk : k = PointerKind.release := hk
  replace hb : b = ({} : Buttons) := hb
  subst hk
  subst hb
  simp only [eventStep]
  unfold pointerButtonsStep
  split_ifs with h1 h2
  · simp at h1
  · simp at h2
  · exact ⟨rfl, rfl, rfl, rfl, rfl, rfl⟩

/-- Witness for the amended C10 at a concrete Release event with empty
`Buttons`, starting from a state with every flag raised. -/
theorem claim_C10_release_clears_all_witness :
    ((eventStep 0 0 0
      ⟨⟨1, 2, 3, 4, true, true, true, true, 9, 0, 200⟩, true, 0, 0, wCloth⟩
      (Event.pointer ⟨PointerKind.release, {}, 0, 0, 0, {}⟩)).1).mouse.leftDown = false ∧
    ((eventStep 0 0 0
      ⟨⟨1, 2, 3, 4, true, true, true, true, 9, 0, 200⟩, true, 0, 0, wCloth⟩
      (Event.pointer ⟨PointerKind.release, {}, 0, 0, 0, {}⟩)).1).mouse.rightDown = false ∧
    ((eventStep 0 0 0
      ⟨⟨1, 2, 3, 4, true, true, true, true, 9, 0, 200⟩, true, 0, 0, wCloth⟩
      (Event.pointer ⟨PointerKind.release, {}, 0, 0, 0, {}⟩)).1).mouse.dragging = false ∧
    ((eventStep 0 0 0
      ⟨⟨1, 2, 3, 4, true, true, true, true, 9, 0, 200⟩, true, 0, 0, wCloth⟩
      (Event.pointer ⟨PointerKind.release, {}, 0, 0, 0, {}⟩)).1).mouse.ctrlDown = false ∧
    ((eventStep 0 0 0
      ⟨⟨1, 2, 3, 4, true, true, true, true, 9, 0, 200⟩, true, 0, 0, wCloth⟩
      (Event.pointer ⟨PointerKind.release, {}, 0, 0, 0, {}⟩)).1).mouse.force = 0 ∧
    ((eventStep 0 0 0
      ⟨⟨1, 2, 3, 4, true, true, true, true, 9, 0, 200⟩, true, 0, 0, wCloth⟩
      (Event.pointer ⟨PointerKind.release, {}, 0, 0, 0, {}⟩)).1).isDragging = false :=
  claim_C10_release_clears_all 0 0 0
    ⟨⟨1, 2, 3, 4, true, true, true, true, 9, 0, 200⟩, true, 0, 0, wCloth⟩
    ⟨PointerKind.release, {}, 0, 0, 0, {}⟩ rfl rfl

/-- C7 counterexample: the claim "for every frame in which only the
secondary (right) button is involved, … the left-button and force state
remain unset" is false as stated.  The Press case of the type switch
(main.go lines 162-167) calls `mouse.setLeftButton()` unconditionally for
every press, including a press carrying only `ButtonSecondary`: starting
idle, after a right-button Press event the left-button flag is `true`. -/
theorem claim_C7_counterexample :
    ((eventStep 940 580 0 wState
      (Event.pointer ⟨PointerKind.press, { secondary := true }, 0, 0, 0, {}⟩)).1).mouse.leftDown
      = true := rfl

/-- C7 (amended): for pointer events that involve only the secondary
button and are not Press events (Move or Drag with `Buttons` exactly
`ButtonSecondary`), the pointer state's position is updated to the event
position and the right-button flag is set, but the left-button flag, the
force accumulator, the drag flag and the control-modifier flag are left
unchanged (main.go lines 159-161, 176-178, 185-189).  A Press event, even
one carrying only the secondary button, additionally raises the
left-button flag because the Press handler treats every press as a
left-button press. -/
theorem claim_C7_right_button_tracks_position (vw vh : Int) (now : ℚ)
    (s : LoopState) (ev : PointerEvent)
    (hb : ev.buttons = ({ secondary := true } : Buttons))
    (hk : ev.kind = PointerKind.move ∨ ev.kind = PointerKind.drag) :
    ((eventStep vw vh now s (Event.pointer ev)).1).mouse.leftDown = s.mouse.leftDown ∧
    ((eventStep vw vh now s (Event.pointer ev)).1).mouse.force = s.mouse.force ∧
    ((eventStep vw vh now s (Event.pointer ev)).1).mouse.dragging = s.mouse.dragging ∧
    ((eventStep vw vh now s (Event.pointer ev)).1).mouse.ctrlDown = s.mouse.ctrlDown ∧
    ((eventStep vw vh now s (Event.pointer ev)).1).mouse.rightDown = true ∧
    ((eventStep vw vh now s (Event.pointer ev)).1).mouse.x = ev.posX ∧
    ((eventStep vw vh now s (Event.pointer ev)).1).mouse.y = ev.posY := by
  obtain ⟨k, b, px, py, sd, m⟩ := ev
  replace hb : b = ({ secondary := true } : Buttons) := hb
  subst hb
  rcases hk with hk | hk <;> replace hk : k = _ := hk <;> subst hk <;>
    simp only [eventStep] <;> unfold pointerButtonsStep <;> split_ifs with h1 h2
  · simp at h1
  · exact ⟨rfl, rfl, rfl, rfl, rfl, rfl, rfl⟩
  · exact absurd rfl h2
  · simp at h1
  · exact ⟨rfl, rfl, rfl, rfl, rfl, rfl, rfl⟩
  · exact absurd rfl h2

/-- Witness for the amended C7 at a concrete Move event carrying only the
secondary button. -/
theorem claim_C7_right_button_tracks_position_witness :
    ((eventStep 940 580 0 wState
      (Event.pointer ⟨PointerKind.move, { secondary := true }, 3, 4, 0, {}⟩)).1).mouse.leftDown
        = wState.mouse.leftDown ∧
    ((eventStep 940 580 0 wState
      (Event.pointer ⟨PointerKind.move, { secondary := true }, 3, 4, 0, {}⟩)).1).mouse.force
        = wState.mouse.force ∧
    ((eventStep 940 580 0 wState
      (Event.pointer ⟨PointerKind.move, { secondary := true }, 3, 4, 0, {}⟩)).1).mouse.dragging
        = wState.mouse.dragging ∧
    ((eventStep 940 580 0 wState
      (Event.pointer ⟨PointerKind.move, { secondary := true }, 3, 4, 0, {}⟩)).1).mouse.ctrlDown
        = wState.mouse.ctrlDown ∧
    ((eventStep 940 580 0 wState
      (Event.pointer ⟨PointerKind.move, { secondary := true }, 3, 4, 0, {}⟩)).1).mouse.rightDown
        = true ∧
    ((eventStep 940 580 0 wState
      (Event.pointer ⟨PointerKind.move, { secondary := true }, 3, 4, 0, {}⟩)).1).mouse.x = 3 ∧
    ((eventStep 940 580 0 wState
      (Event.pointer ⟨PointerKind.move, { secondary := true }, 3, 4, 0, {}⟩)).1).mouse.y = 4 :=
  claim_C7_right_button_tracks_position 940 580 0 wState
    ⟨PointerKind.move, { secondary := true }, 3, 4, 0, {}⟩ rfl (Or.inl rfl)

/-! ### Force-accumulator lemmas for C3 -/

lemma initStep_mouse (s : LoopState) (f : FrameInput) :
    (initStep s f).mouse = s.mouse := by
  unfold initStep
  split_ifs <;> rfl

lemma initStep_initTime (s : LoopState) (f : FrameInput) :
    (initStep s f).initTime = s.initTime := by
  unfold initStep
  split_ifs <;> rfl

lemma forceStep_leftDown (now : ℚ) (s : LoopState) :
    (forceStep now s).mouse.leftDown = s.mouse.leftDown := by
  unfold forceStep
  split_ifs <;> rfl

lemma forceStep_initTime (now : ℚ) (s : LoopState) :
    (forceStep now s).initTime = s.initTime := by
  unfold forceStep
  split_ifs <;> rfl

lemma forceStep_force_of_held (now : ℚ) (s : LoopState)
    (h : s.mouse.leftDown = true) :
    (forceStep now s).mouse.force = s.mouse.force + (now - s.initTime) := by
  simp [forceStep, h]

lemma frameStep_state_no_events (s : LoopState) (f : FrameInput)
    (hf : f.events = []) :
    (frameStep s f).1 = updateStep (forceStep f.now (initStep s f)) := by
  simp [frameStep, hf, eventsStep]

lemma frameStep_hold (s : LoopState) (f : FrameInput)
    (hf : f.events = []) (hl : s.mouse.leftDown = true) :
    ((frameStep s f).1).mouse.leftDown = true ∧
    ((frameStep s f).1).initTime = s.initTime ∧
    ((frameStep s f).1).mouse.force = s.mouse.force + (f.now - s.initTime) := by
  rw [frameStep_state_no_events s f hf]
  have hl2 : (initStep s f).mouse.leftDown = true := by
    rw [initStep_mouse]; exact hl
  refine ⟨?_, ?_, ?_⟩
  · show (forceStep f.now (initStep s f)).mouse.leftDown = true
    rw [forceStep_leftDown, initStep_mouse]
    exact hl
  · show (forceStep f.now (initStep s f)).initTime = s.initTime
    rw [forceStep_initTime, initStep_initTime]
  · show (forceStep f.now (initStep s f)).mouse.force = s.mouse.force + (f.now - s.initTime)
    rw [forceStep_force_of_held _ _ hl2, initStep_mouse, initStep_initTime]

lemma runFrames_cons (s : LoopState) (f : FrameInput) (fs : List FrameInput) :
    runFrames s (f :: fs) = runFrames (frameStep s f).1 fs := rfl

/-- C3: while the left button is held continuously across frames (the
press happened at `s.initTime` and every subsequent frame happens strictly
later and delivers no further events), the force accumulator strictly
grows with each frame — hence its value at any later time of the hold is
strictly greater than at any earlier one — and it is reset to 0 by the
processing of any Release event (main.go lines 126-129 and 168-175; the
accumulation function is modelled from the spec as the mouse internals are
not under the provided sources). -/
theorem claim_C3_force_monotone_while_held :
    (∀ (fs : List FrameInput) (s : LoopState),
        s.mouse.leftDown = true → fs ≠ [] →
        (∀ f ∈ fs, f.events = [] ∧ s.initTime < f.now) →
        s.mouse.force < (runFrames s fs).mouse.force) ∧
    (∀ (vw vh : Int) (now : ℚ) (s : LoopState) (ev : PointerEvent),
        ev.kind = PointerKind.release →
        ((eventStep vw vh now s (Event.pointer ev)).1).mouse.force = 0) := by
  constructor
  · intro fs
    induction fs with
    | nil => intro s hl hne hall; exact absurd rfl hne
    | cons f rest ih =>
        intro s hl hne hall
        obtain ⟨hf, hnow⟩ := hall f (List.mem_cons_self f rest)
        obtain ⟨hl2, hit2, hforce⟩ := frameStep_hold s f hf hl
        have hstep : s.mouse.force < ((frameStep s f).1).mouse.force := by
          rw [hforce]; linarith
        cases rest with
        | nil => simpa [runFrames, run] using hstep
        | cons g rest2 =>
            have hall2 : ∀ x ∈ g :: rest2,
                x.events = [] ∧ ((frameStep s f).1).initTime < x.now := by
              intro x hx
              obtain ⟨hx1, hx2⟩ := hall x (List.mem_cons_of_mem f hx)
              exact ⟨hx1, by rw [hit2]; exact hx2⟩
            have hrest := ih ((frameStep s f).1) hl2 (by simp) hall2
            rw [runFrames_cons]
            exact lt_trans hstep hrest
  · intro vw vh now s ev hk
    obtain ⟨k, b, px, py, sd, m⟩ := ev
    replace hk : k = PointerKind.release := hk
    subst hk
    simp only [eventStep]
    unfold pointerButtonsStep
    split_ifs <;> rfl

/-- Witness for C3: one hold frame at time 1 strictly grows the force from
a held state with press time 0, and a concrete Release event resets the
force of a state holding force 9 to 0. -/
theorem claim_C3_force_monotone_while_held_witness :
    (⟨⟨0, 0, 0, 0, false, true, false, false, 0, 0, 200⟩, false, 0, 0, wCloth⟩ :
        LoopState).mouse.force <
      (runFrames ⟨⟨0, 0, 0, 0, false, true, false, false, 0, 0, 200⟩, false, 0, 0, wCloth⟩
        [⟨940, 580, 1, []⟩]).mouse.force ∧
    ((eventStep 0 0 0
      ⟨⟨0, 0, 0, 0, false, true, false, false, 9, 0, 200⟩, false, 0, 0, wCloth⟩
      (Event.pointer ⟨PointerKind.release, {}, 0, 0, 0, {}⟩)).1).mouse.force = 0 :=
  ⟨claim_C3_force_monotone_while_held.1 [⟨940, 580, 1, []⟩]
      ⟨⟨0, 0, 0, 0, false, true, false, false, 0, 0, 200⟩, false, 0, 0, wCloth⟩
      rfl (by simp)
      (by
        intro f hf
        simp only [List.mem_singleton] at hf
        subst hf
        exact ⟨rfl, by norm_num⟩),
   claim_C3_force_monotone_while_held.2 0 0 0
      ⟨⟨0, 0, 0, 0, false, true, false, false, 9, 0, 200⟩, false, 0, 0, wCloth⟩
      ⟨PointerKind.release, {}, 0, 0, 0, {}⟩ rfl⟩

/-- C6: key handling (main.go lines 132-146).  A Space key press
recomputes the origin from the current viewport and calls the cloth's
`Reset`; an Escape key event makes the host close the window; and key
events have no other effect: the mouse, the drag flag, the scroll
accumulator and the press timestamp are never touched, and unless the
event is a Space press the whole loop state is unchanged. -/
theorem claim_C6_key_handling (vw vh : Int) (s : LoopState) (e : KeyEvent) :
    (e.state = KeyState.press → e.name = KeyName.space →
      ((keyStep vw vh s e).1).cloth = s.cloth.Reset (startXof vw) (startYof vh) ∧
      Action.resetCall (startXof vw) (startYof vh) ∈ (keyStep vw vh s e).2) ∧
    (e.name = KeyName.escape → Action.closeWindow ∈ (keyStep vw vh s e).2) ∧
    ((keyStep vw vh s e).1).mouse = s.mouse ∧
    ((keyStep vw vh s e).1).isDragging = s.isDragging ∧
    ((keyStep vw vh s e).1).scrollY = s.scrollY ∧
    ((keyStep vw vh s e).1).initTime = s.initTime ∧
    (¬(e.state = KeyState.press ∧ e.name = KeyName.space) →
      (keyStep vw vh s e).1 = s) := by
  simp only [keyStep]
  split_ifs <;>
    refine ⟨fun hs hn => ⟨?_, ?_⟩, fun he => ?_, rfl, rfl, rfl, rfl, fun hn => ?_⟩ <;>
      simp_all

/-- Witness for C6 at a concrete Space press, a concrete Escape event and
a concrete unrelated key event. -/
theorem claim_C6_key_handling_witness :
    ((keyStep 940 580 wState ⟨KeyState.press, KeyName.space⟩).1).cloth =
      wState.cloth.Reset (startXof 940) (startYof 580) ∧
    Action.closeWindow ∈ (keyStep 940 580 wState ⟨KeyState.release, KeyName.escape⟩).2 ∧
    (keyStep 940 580 wState ⟨KeyState.press, KeyName.other⟩).1 = wState :=
  ⟨((claim_C6_key_handling 940 580 wState ⟨KeyState.press, KeyName.space⟩).1 rfl rfl).1,
   (claim_C6_key_handling 940 580 wState ⟨KeyState.release, KeyName.escape⟩).2.1 rfl,
   (claim_C6_key_handling 940 580 wState ⟨KeyState.press, KeyName.other⟩).2.2.2.2.2.2
     (by decide)⟩

/-- A cloth sharing the configuration of the program's cloth but carrying
stale simulation state, used to witness C8. -/
def wCloth8 : Cloth :=
  { initialCloth with
    damping := 1 / 2,
    particles := [⟨0, 0, 0, 0, true⟩],
    isInitialized := true }

/-- C8: `Reset` rebuilds an identical grid.  For any cloth sharing the
grid configuration (dimensions and spacing) of the program's cloth,
`Reset(x, y)` at the Space-key origin — the same
`startX = width/2 - clothW/2`, `startY ≈ height*0.2` functions used at
first init — produces exactly the particles (count, positions, pin
pattern) and constraints of a fresh `Init(x, y)`, leaves the cloth marked
initialized, and the cloth installed by a Space key press is that same
grid (main.go lines 97-104 and 134-141; `Init`/`Reset` are modelled from
the spec as `cloth.go` is not under the provided sources). -/
theorem claim_C8_reset_rebuilds_identical_grid (c : Cloth) (vw vh : Int)
    (hW : c.gridW = initialCloth.gridW) (hH : c.gridH = initialCloth.gridH)
    (hS : c.spacing = initialCloth.spacing) :
    (c.Reset (startXof vw) (startYof vh)).particles =
      (initialCloth.Init (startXof vw) (startYof vh)).particles ∧
    (c.Reset (startXof vw) (startYof vh)).constraints =
      (initialCloth.Init (startXof vw) (startYof vh)).constraints ∧
    (c.Reset (startXof vw) (startYof vh)).isInitialized = true ∧
    ∀ s : LoopState, s.cloth = c →
      ((keyStep vw vh s ⟨KeyState.press, KeyName.space⟩).1).cloth.particles =
        (initialCloth.Init (startXof vw) (startYof vh)).particles := by
  have hp : (c.Reset (startXof vw) (startYof vh)).particles =
      (initialCloth.Init (startXof vw) (startYof vh)).particles := by
    simp [Cloth.Reset, Cloth.Init, hW, hH, hS]
  refine ⟨hp, ?_, rfl, ?_⟩
  · simp [Cloth.Reset, Cloth.Init, hW, hH, hS]
  · intro s hs
    have hcl : ((keyStep vw vh s ⟨KeyState.press, KeyName.space⟩).1).cloth =
        s.cloth.Reset (startXof vw) (startYof vh) := by
      simp [keyStep]
    rw [hcl, hs]
    exact hp

/-- Witness for C8 at the concrete stale cloth `wCloth8` and the program's
window size. -/
theorem claim_C8_reset_rebuilds_identical_grid_witness :
    (wCloth8.Reset (startXof 940) (startYof 580)).particles =
      (initialCloth.Init (startXof 940) (startYof 580)).particles ∧
    (wCloth8.Reset (startXof 940) (startYof 580)).isInitialized = true :=
  ⟨(claim_C8_reset_rebuilds_identical_grid wCloth8 940 580 rfl rfl rfl).1,
   (claim_C8_reset_rebuilds_identical_grid wCloth8 940 580 rfl rfl rfl).2.2.1⟩

end GioCloth
